import Mathlib

/-!
Shallow embedding of the FastAPI e-commerce backend (app/routers/users.py,
app/routers/products.py, app/routers/reviews.py, app/models, app/schemas.py)
for verifying the specification claims about the auth and rating subsystem.

The persistent store is modelled as lists of rows; SQLAlchemy first/all/avg
queries become List.find?, List.filter and an explicit average; HTTP errors
become Except with the numeric status code; FastAPI dependency-injected
identities (get_current_buyer and friends) become explicit User parameters.
Python float arithmetic on ratings is idealised as exact rational arithmetic.
-/

namespace Shop

/-- Row of the users table (app/models/users.py is referenced by the routers;
the registration default used below, is_active true on creation, is
modelled from the spec: users are created active and is_active supports
soft-deactivation). -/
structure User where
  id : Nat
  email : String
  hashed_password : String
  role : String
  is_active : Bool
deriving DecidableEq, Repr

/-- Row of the categories table (app/models/categories.py, referenced by
app/routers/products.py; fields modelled from the spec data model). -/
structure Category where
  id : Nat
  name : String
  parent_id : Option Nat
  is_active : Bool
deriving DecidableEq, Repr

/-- Row of the products table (app/models/products.py). Decimal price and
float rating are both modelled as exact rationals. -/
structure Product where
  id : Nat
  name : String
  description : Option String
  price : Rat
  image_url : Option String
  stock : Nat
  is_active : Bool
  rating : Rat
  category_id : Nat
  seller_id : Nat
deriving DecidableEq, Repr

/-- Row of the reviews table (app/models/reviews.py). Timestamps are
modelled as naturals. -/
structure Review where
  id : Nat
  user_id : Nat
  product_id : Nat
  comments : Option String
  comment_date : Nat
  grade : Nat
  is_active : Bool
deriving DecidableEq, Repr

/-- The whole persistent store. -/
structure DB where
  users : List User
  categories : List Category
  products : List Product
  reviews : List Review
deriving DecidableEq, Repr

/-- Request body of POST /reviews/ (schemas.py ReviewCreate). -/
structure ReviewCreate where
  product_id : Nat
  comments : Option String
  grade : Nat
deriving DecidableEq, Repr

/-- Request body of POST /products/ and PUT /products/(id)
(schemas.py ProductCreate). -/
structure ProductCreate where
  name : String
  description : Option String
  price : Rat
  image_url : Option String
  stock : Nat
  category_id : Nat
deriving DecidableEq, Repr

/-- Request body of POST /users/ (schemas.py UserCreate). -/
structure UserCreate where
  email : String
  password : String
  role : String
deriving DecidableEq, Repr

instance {ε α : Type} [DecidableEq ε] [DecidableEq α] :
    DecidableEq (Except ε α) := fun x y =>
  match x, y with
  | Except.error a, Except.error b =>
    if h : a = b then Decidable.isTrue (by rw [h])
    else Decidable.isFalse (by intro hc; injection hc; contradiction)
  | Except.error a, Except.ok b =>
    Decidable.isFalse (by intro hc; exact Except.noConfusion hc)
  | Except.ok a, Except.error b =>
    Decidable.isFalse (by intro hc; exact Except.noConfusion hc)
  | Except.ok a, Except.ok b =>
    if h : a = b then Decidable.isTrue (by rw [h])
    else Decidable.isFalse (by intro hc; injection hc; contradiction)

/-- The regular expression constraint on UserCreate.role in schemas.py,
pattern caret (admin|buyer|seller) dollar: the role string must be exactly
one of the three alternatives. -/
def role_pattern_ok (role : String) : Bool :=
  role == "admin" || role == "buyer" || role == "seller"

/-- The column default of Review.comment_date in app/models/reviews.py.
The source passes the expression datetime.now() as the default, which
Python evaluates once, when the models module is loaded; the column default
is therefore the fixed timestamp captured at module load time, not a
callable evaluated per insert. -/
def comment_date_default (moduleLoadTime : Nat) : Nat := moduleLoadTime

/-- Grades of the active reviews of one product: the rows selected by
select(func.avg(ReviewModel.grade)).where(product_id matches, is_active)
in update_product_rating. -/
def active_grades (reviews : List Review) (product_id : Nat) : List Nat :=
  (reviews.filter (fun r => r.product_id == product_id && r.is_active)).map
    (fun r => r.grade)

/-- result.scalar() for the avg query: SQL AVG returns NULL (none) when no
row matches, else the exact average of the grades. -/
def scalar_avg (grades : List Nat) : Option Rat :=
  match grades with
  | [] => none
  | _ => some ((grades.map (fun g => (g : Rat))).sum / (grades.length : Rat))

/-- Python truthiness fallback, x or d, on an optional float: returns d when
x is None or 0.0, else the value of x. -/
def py_or (x : Option Rat) (d : Rat) : Rat :=
  match x with
  | none => d
  | some v => if v = 0 then d else v

/-- The arithmetic mean of a list of grades, 0 for the empty list. -/
def mean_of_grades (grades : List Nat) : Rat :=
  match grades with
  | [] => 0
  | gs => (gs.map (fun g => (g : Rat))).sum / (gs.length : Rat)

/-- The arithmetic mean of grade over the active reviews of a product,
0 when there is no active review: the value the spec says the rating must
always equal. -/
def mean_active_grades (reviews : List Review) (product_id : Nat) : Rat :=
  mean_of_grades (active_grades reviews product_id)

/-- The write of product.rating = avg_rating against the row with the given
primary key. -/
def set_rating (product_id : Nat) (avg_rating : Rat) (ps : List Product) :
    List Product :=
  ps.map (fun p => if p.id == product_id then { p with rating := avg_rating }
                   else p)

/-- The UPDATE statement of remove_review: set is_active false on the
review row with the given id. -/
def deactivate_review (review_id : Nat) (rs : List Review) : List Review :=
  rs.map (fun r => if r.id == review_id then { r with is_active := false }
                   else r)

/-- The UPDATE statement of delete_product: set is_active false on the
product row with the given id. -/
def deactivate_product (product_id : Nat) (ps : List Product) :
    List Product :=
  ps.map (fun p => if p.id == product_id then { p with is_active := false }
                   else p)

/-- update_product_rating in app/routers/reviews.py: averages the grades of
the active reviews of the product (avg or 0.0), loads the product row by
primary key, writes the average into its rating column and commits. When
the product row is absent the Python code dereferences None and the request
fails; this is the none case. -/
def update_product_rating (db : DB) (product_id : Nat) : Option DB :=
  let avg_rating := py_or (scalar_avg (active_grades db.reviews product_id)) 0
  match db.products.find? (fun p => p.id == product_id) with
  | none => none
  | some _ =>
    some { db with products := set_rating product_id avg_rating db.products }

/-- create_review in app/routers/reviews.py (POST /reviews/). Looks up an
active product (404 otherwise), then checks whether ANY review by this user
for this product exists, active or not (409 if so), inserts the new review
with the column defaults (is_active true, comment_date the module-load
default), commits, and recomputes the product rating. The now argument is
the wall clock at request time; the handler never reads it. -/
def create_review (moduleLoadTime : Nat) (db : DB) (review : ReviewCreate)
    (current_user_id : Nat) (newId : Nat) (now : Nat) :
    Except Nat (DB × Review) :=
  match db.products.find?
      (fun p => p.id == review.product_id && p.is_active) with
  | none => Except.error 404
  | some _ =>
    match db.reviews.find?
        (fun r => r.product_id == review.product_id &&
                  r.user_id == current_user_id) with
    | some _ => Except.error 409
    | none =>
      let db_review : Review :=
        { id := newId
          user_id := current_user_id
          product_id := review.product_id
          comments := review.comments
          comment_date := comment_date_default moduleLoadTime
          grade := review.grade
          is_active := true }
      let db1 : DB := { db with reviews := db.reviews ++ [db_review] }
      match update_product_rating db1 review.product_id with
      | none => Except.error 500
      | some db2 => Except.ok (db2, db_review)

/-- remove_review in app/routers/reviews.py (DELETE /reviews/(id)): finds
the active review by id (404 otherwise), flips its is_active to false,
commits, then recomputes the rating of the product the review was for. -/
def remove_review (db : DB) (review_id : Nat) : Except Nat (DB × String) :=
  match db.reviews.find? (fun r => r.id == review_id && r.is_active) with
  | none => Except.error 404
  | some review =>
    let db1 : DB := { db with reviews := deactivate_review review_id db.reviews }
    match update_product_rating db1 review.product_id with
    | none => Except.error 500
    | some db2 => Except.ok (db2, "Review deleted")

/-- get_reviews_by_product_id in app/routers/reviews.py
(GET /reviews/products/(product_id)). The handler binds review to
stmt.all(), which in SQLAlchemy always returns a list and never None; the
Option wrapper models exactly that, so the subsequent None check selecting
the 404 branch can never fire. -/
def get_reviews_by_product_id (db : DB) (product_id : Nat) :
    Except Nat (List Review) :=
  let res : Option (List Review) :=
    some (db.reviews.filter
      (fun r => r.product_id == product_id && r.is_active))
  match res with
  | none => Except.error 404
  | some review => Except.ok review

/-- The UPDATE statement of update_product: overwrite the six ProductCreate
columns of a row, leaving id, is_active, rating and seller_id alone. -/
def apply_product_values (product : ProductCreate) (p : Product) : Product :=
  { p with
    name := product.name
    description := product.description
    price := product.price
    image_url := product.image_url
    stock := product.stock
    category_id := product.category_id }

/-- update_product in app/routers/products.py (PUT /products/(id)): finds
the active product (404), checks ownership (403), checks the category
(400), then overwrites the six ProductCreate columns of the row and
commits. The acting seller arrives resolved by get_current_seller. -/
def update_product (db : DB) (product_id : Nat) (product : ProductCreate)
    (current_user : User) : Except Nat (DB × Product) :=
  match db.products.find?
      (fun p => p.id == product_id && p.is_active) with
  | none => Except.error 404
  | some db_product =>
    if db_product.seller_id != current_user.id then Except.error 403
    else
      match db.categories.find?
          (fun c => c.id == product.category_id && c.is_active) with
      | none => Except.error 400
      | some _ =>
        let newProducts := db.products.map
          (fun p => if p.id == product_id then apply_product_values product p
                    else p)
        Except.ok ({ db with products := newProducts },
                   apply_product_values product db_product)

/-- delete_product in app/routers/products.py (DELETE /products/(id)):
finds the active product (404), checks ownership (403), then sets only the
is_active column of the row to false, commits, and returns the refreshed
row. -/
def delete_product (db : DB) (product_id : Nat) (current_user : User) :
    Except Nat (DB × Product) :=
  match db.products.find?
      (fun p => p.id == product_id && p.is_active) with
  | none => Except.error 404
  | some product =>
    if product.seller_id != current_user.id then Except.error 403
    else
      Except.ok ({ db with products := deactivate_product product_id db.products },
                 { product with is_active := false })

/-- Modelled from the spec: hash_password lives in app/auth.py, which is not
under src/. Spec 4.1: a one-way salted hash used once at registration; no
claim depends on its value, so it is modelled as an injective tagging. -/
def hash_password (password : String) : String := "bcrypt$" ++ password

/-- The status_code declared on the POST /users/ route decorator in
app/routers/users.py. -/
def create_user_success_status : Nat := 201

/-- create_user in app/routers/users.py (POST /users/): rejects an already
registered email with 400, otherwise inserts a user with the hashed
password and the requested role. The user model is not under src/; the
is_active true registration default is modelled from the spec. -/
def create_user (db : DB) (user : UserCreate) (newId : Nat) :
    Except Nat (DB × User) :=
  match db.users.find? (fun u => u.email == user.email) with
  | some _ => Except.error 400
  | none =>
    let db_user : User :=
      { id := newId
        email := user.email
        hashed_password := hash_password user.password
        role := user.role
        is_active := true }
    Except.ok ({ db with users := db.users ++ [db_user] }, db_user)

/-- The decoded claim set of a JWT as the handlers read it: payload.get on
each key yields an Option. -/
structure TokenPayload where
  sub : Option String
  role : Option String
  id : Option Nat
  token_type : Option String
  exp : Option Nat
deriving DecidableEq, Repr

/-- Outcome of jwt.decode(old_refresh_token, SECRET_KEY, [ALGORITHM]) as
the handlers observe it: a payload, ExpiredSignatureError, or any other
PyJWTError (bad signature or broken structure). The JWT library itself is
an external dependency; the endpoint definitions take this outcome as
input. -/
inductive DecodeResult where
  | ok (payload : TokenPayload)
  | expired
  | malformed
deriving DecidableEq, Repr

/-- Modelled from the spec: access token lifetime (app/auth.py is not under
src/); spec 4.2 says minutes. -/
def ACCESS_TOKEN_LIFETIME : Nat := 30 * 60

/-- Modelled from the spec: refresh token lifetime (app/auth.py is not
under src/); spec 4.2 says days. -/
def REFRESH_TOKEN_LIFETIME : Nat := 7 * 24 * 60 * 60

/-- A signed token as issued by the token service: the claim set it
embeds. -/
structure IssuedToken where
  sub : String
  role : String
  id : Nat
  token_type : String
  exp : Nat
deriving DecidableEq, Repr

/-- Modelled from the spec: create_access_token lives in app/auth.py, not
under src/. Spec 4.2: a signed token embedding sub, role, id, a token_type
of access and a short expiry. -/
def create_access_token (sub role : String) (id : Nat) (now : Nat) :
    IssuedToken :=
  { sub := sub, role := role, id := id, token_type := "access",
    exp := now + ACCESS_TOKEN_LIFETIME }

/-- Modelled from the spec: create_refresh_token lives in app/auth.py, not
under src/. Spec 4.2: a signed token embedding sub, role, id, a token_type
of refresh and a long expiry. -/
def create_refresh_token (sub role : String) (id : Nat) (now : Nat) :
    IssuedToken :=
  { sub := sub, role := role, id := id, token_type := "refresh",
    exp := now + REFRESH_TOKEN_LIFETIME }

/-- The JSON body both token endpoints return: a field literally named
refresh_token plus a token_type tag of bearer. -/
structure TokenResponseBody where
  refresh_token : IssuedToken
  token_type : String
deriving DecidableEq, Repr

/-- refresh_token endpoint in app/routers/users.py
(POST /users/refresh-token): 401 on decode failure, missing sub, a
token_type other than refresh, or no active user with that email;
otherwise issues a fresh refresh token whose claims are read from the user
row just loaded. -/
def refresh_token_endpoint (db : DB) (decoded : DecodeResult) (now : Nat) :
    Except Nat TokenResponseBody :=
  match decoded with
  | DecodeResult.expired => Except.error 401
  | DecodeResult.malformed => Except.error 401
  | DecodeResult.ok payload =>
    match payload.sub with
    | none => Except.error 401
    | some email =>
      if payload.token_type != some "refresh" then Except.error 401
      else
        match db.users.find?
            (fun u => u.email == email && u.is_active) with
        | none => Except.error 401
        | some user =>
          Except.ok
            { refresh_token :=
                create_refresh_token user.email user.role user.id now
              token_type := "bearer" }

/-- new_token endpoint in app/routers/users.py (POST /users/new_token):
identical validation to refresh_token_endpoint, but the token it issues is
built by create_access_token, and it is still returned under the body
field named refresh_token. -/
def new_token_endpoint (db : DB) (decoded : DecodeResult) (now : Nat) :
    Except Nat TokenResponseBody :=
  match decoded with
  | DecodeResult.expired => Except.error 401
  | DecodeResult.malformed => Except.error 401
  | DecodeResult.ok payload =>
    match payload.sub with
    | none => Except.error 401
    | some email =>
      if payload.token_type != some "refresh" then Except.error 401
      else
        match db.users.find?
            (fun u => u.email == email && u.is_active) with
        | none => Except.error 401
        | some user =>
          Except.ok
            { refresh_token :=
                create_access_token user.email user.role user.id now
              token_type := "bearer" }

/-- The rejection condition of the two refresh-flow endpoints, as the spec
words it: the decode failed (expired or malformed), or the sub claim is
missing, or the token_type claim is not refresh, or no user with that
email and is_active true exists. -/
def token_request_rejected (db : DB) (decoded : DecodeResult) : Bool :=
  match decoded with
  | DecodeResult.expired => true
  | DecodeResult.malformed => true
  | DecodeResult.ok payload =>
    match payload.sub with
    | none => true
    | some email =>
      payload.token_type != some "refresh" ||
      !(db.users.any (fun u => u.email == email && u.is_active))

/-- The spec invariant on the derived rating column: every product row
carries exactly the mean of the grades of its active reviews. -/
def rating_invariant (db : DB) : Prop :=
  ∀ p ∈ db.products, p.rating = mean_active_grades db.reviews p.id

/-- Primary-key uniqueness of review ids, which the reviews table enforces
through its integer primary key column. -/
def unique_review_ids (db : DB) : Prop :=
  (db.reviews.map (fun r => r.id)).Nodup

/-- Fixture: a seller who owns no product in the fixtures. -/
def otherSeller : User :=
  { id := 8, email := "s2@x.com", hashed_password := "h2",
    role := "seller", is_active := true }

/-- Fixture: an active product owned by seller 9, rating currently 4. -/
def exProduct : Product :=
  { id := 1, name := "widget", description := none, price := 10,
    image_url := none, stock := 5, is_active := true, rating := 4,
    category_id := 1, seller_id := 9 }

/-- Fixture store: one buyer, one category, one product whose rating 4 is
the mean of its single active grade-4 review; a second, soft-deleted
grade-1 review by user 2 is also on file. -/
def exDB : DB :=
  { users := [{ id := 1, email := "b@x.com", hashed_password := "h",
                role := "buyer", is_active := true }]
    categories := [{ id := 1, name := "cat", parent_id := none,
                     is_active := true }]
    products := [exProduct]
    reviews := [{ id := 1, user_id := 1, product_id := 1, comments := none,
                  comment_date := 0, grade := 4, is_active := true },
                { id := 2, user_id := 2, product_id := 1, comments := none,
                  comment_date := 0, grade := 1, is_active := false }] }

/-- Fixture request body: a grade-5 review of product 1. -/
def exReviewCreate : ReviewCreate :=
  { product_id := 1, comments := none, grade := 5 }

/-- Fixture store for the token endpoints: one active buyer whose stored
role is buyer, and one deactivated user. -/
def exAuthDB : DB :=
  { users := [{ id := 1, email := "b@x.com", hashed_password := "h",
                role := "buyer", is_active := true },
              { id := 2, email := "off@x.com", hashed_password := "h",
                role := "seller", is_active := false }]
    categories := []
    products := []
    reviews := [] }

/-- Fixture payload: a well-formed refresh-token claim set for the active
user, whose embedded role claim, admin, is stale relative to the stored
row. -/
def exPayload : TokenPayload :=
  { sub := some "b@x.com", role := some "admin", id := some 1,
    token_type := some "refresh", exp := some 999999 }

/-- Fixture: the seller who owns exProduct. -/
def ownerSeller : User :=
  { id := 9, email := "s@x.com", hashed_password := "h9",
    role := "seller", is_active := true }

/-- Fixture request body for PUT /products/. -/
def exProductCreate : ProductCreate :=
  { name := "thing", description := none, price := 12, image_url := none,
    stock := 1, category_id := 1 }

/-- Fixture registration body asking for the admin role. -/
def exAdminCreate : UserCreate :=
  { email := "root@x.com", password := "password123", role := "admin" }

/-- Fixture payload for the deactivated user. -/
def exInactivePayload : TokenPayload :=
  { sub := some "off@x.com", role := some "seller", id := some 2,
    token_type := some "refresh", exp := some 999999 }

/-- Fixture: the review that POST /reviews/ inserts for user 3 with the
module-load default timestamp 3. -/
def exReviewA : Review :=
  { id := 3, user_id := 3, product_id := 1, comments := none,
    comment_date := 3, grade := 5, is_active := true }

/-- Fixture: the review that POST /reviews/ inserts for user 4 with the
module-load default timestamp 3. -/
def exReviewB : Review :=
  { id := 4, user_id := 4, product_id := 1, comments := none,
    comment_date := 3, grade := 5, is_active := true }

/-- Fixture: exDB after user 3 posted the grade-5 review; the rating became
the mean of grades 4 and 5. -/
def exDBafterA : DB :=
  { exDB with
    products := [{ exProduct with rating := 9 / 2 }]
    reviews := exDB.reviews ++ [exReviewA] }

/-- Fixture: exDB after user 4 posted the grade-5 review. -/
def exDBafterB : DB :=
  { exDB with
    products := [{ exProduct with rating := 9 / 2 }]
    reviews := exDB.reviews ++ [exReviewB] }

/-- Fixture: exDB after DELETE /products/1 by its owner. -/
def exDBdeleted : DB :=
  { exDB with products := [{ exProduct with is_active := false }] }

theorem py_or_scalar_avg (rs : List Review) (pid : Nat) :
    py_or (scalar_avg (active_grades rs pid)) 0 = mean_active_grades rs pid := by
  unfold mean_active_grades mean_of_grades
  cases h : active_grades rs pid with
  | nil => simp [scalar_avg, py_or]
  | cons a t =>
    simp only [scalar_avg, py_or]
    split
    · next hv => exact hv.symm
    · rfl

theorem update_product_rating_eq (db : DB) (pid : Nat) (db2 : DB)
    (h : update_product_rating db pid = some db2) :
    db2.users = db.users ∧ db2.categories = db.categories ∧
    db2.reviews = db.reviews ∧
    db2.products =
      set_rating pid (mean_active_grades db.reviews pid) db.products := by
  unfold update_product_rating at h
  rw [py_or_scalar_avg] at h
  cases hf : db.products.find? (fun p => p.id == pid) with
  | none => rw [hf] at h; exact absurd h (by simp)
  | some q =>
    rw [hf] at h
    simp only [Option.some.injEq] at h
    subst h
    exact ⟨rfl, rfl, rfl, rfl⟩

theorem create_review_ok (mlt : Nat) (db : DB) (inp : ReviewCreate)
    (u n t : Nat) (db2 : DB) (r : Review)
    (h : create_review mlt db inp u n t = Except.ok (db2, r)) :
    r = { id := n, user_id := u, product_id := inp.product_id,
          comments := inp.comments,
          comment_date := comment_date_default mlt,
          grade := inp.grade, is_active := true } ∧
    update_product_rating { db with reviews := db.reviews ++ [r] }
      inp.product_id = some db2 := by
  unfold create_review at h
  split at h
  · exact absurd h (by simp)
  · split at h
    · exact absurd h (by simp)
    · simp only [] at h
      split at h
      · exact absurd h (by simp)
      · next db3 hu =>
        simp only [Except.ok.injEq, Prod.mk.injEq] at h
        obtain ⟨hdb, hr⟩ := h
        subst hdb; subst hr
        exact ⟨rfl, hu⟩

theorem remove_review_ok (db : DB) (rid : Nat) (db2 : DB) (msg : String)
    (h : remove_review db rid = Except.ok (db2, msg)) :
    ∃ review,
      db.reviews.find? (fun r => r.id == rid && r.is_active) = some review ∧
      update_product_rating
        { db with reviews := deactivate_review rid db.reviews }
        review.product_id = some db2 := by
  unfold remove_review at h
  split at h
  · exact absurd h (by simp)
  · next review hf =>
    simp only [] at h
    split at h
    · exact absurd h (by simp)
    · next db3 hu =>
      simp only [Except.ok.injEq, Prod.mk.injEq] at h
      obtain ⟨hdb, hm⟩ := h
      subst hdb
      exact ⟨review, hf, hu⟩

theorem filter_map_congr {α : Type} (l : List α) (g : α → α) (p : α → Bool)
    (h : ∀ a ∈ l, p (g a) = p a ∧ (p a = true → g a = a)) :
    (l.map g).filter p = l.filter p := by
  induction l with
  | nil => rfl
  | cons a t ih =>
    have ha := h a (List.mem_cons_self a t)
    have ht := ih (fun b hb => h b (List.mem_cons_of_mem _ hb))
    simp only [List.map_cons, List.filter_cons, ha.1]
    cases hp : p a with
    | false => simpa [hp] using ht
    | true => rw [ha.2 hp]; simpa [hp] using congrArg (List.cons a) ht

theorem active_grades_append (rs : List Review) (r : Review) (q : Nat)
    (hne : r.product_id ≠ q) :
    active_grades (rs ++ [r]) q = active_grades rs q := by
  unfold active_grades
  rw [List.filter_append]
  have hr : ([r].filter fun x => x.product_id == q && x.is_active) = [] := by
    simp [hne]
  rw [hr, List.append_nil]

/-- C9: GET /reviews/products/(product_id) answers 200 with exactly the
active reviews of that product; when none exists, including for a
nonexistent product id, the list is empty; the 404 branch guarded by a
None check on the result of .all() is unreachable, since .all() always
returns a list. -/
theorem claim_C9 (db : DB) (product_id : Nat) :
    get_reviews_by_product_id db product_id =
      Except.ok (db.reviews.filter
        (fun r => r.product_id == product_id && r.is_active)) ∧
    ((∀ r ∈ db.reviews, r.product_id = product_id → r.is_active = false) →
      get_reviews_by_product_id db product_id = Except.ok []) ∧
    (∀ e, get_reviews_by_product_id db product_id ≠ Except.error e) := by
  refine ⟨rfl, ?_, ?_⟩
  · intro hnone
    unfold get_reviews_by_product_id
    have : db.reviews.filter
        (fun r => r.product_id == product_id && r.is_active) = [] := by
      rw [List.filter_eq_nil_iff]
      intro r hr
      simp only [Bool.and_eq_true, beq_iff_eq, not_and]
      intro hpid hact
      rw [hnone r hr hpid] at hact
      exact Bool.false_ne_true hact
    simp [this]
  · intro e
    simp [get_reviews_by_product_id]

theorem claim_C9_witness :
    (∀ r ∈ exDB.reviews, r.product_id = 7 → r.is_active = false) ∧
    get_reviews_by_product_id exDB 7 = Except.ok [] :=
  ⟨by decide, (claim_C9 exDB 7).2.1 (by decide)⟩

/-- C10: every review created through POST /reviews/ gets as comment_date
the single value captured when the models module was loaded, because the
column default is the already-evaluated expression datetime.now(); two
reviews created at different request times in the same process run
therefore carry equal comment_date values. -/
theorem claim_C10 (moduleLoadTime : Nat)
    (dbA dbB : DB) (inA inB : ReviewCreate)
    (uA uB nA nB tA tB : Nat)
    (dbA2 dbB2 : DB) (rA rB : Review)
    (h1 : create_review moduleLoadTime dbA inA uA nA tA =
            Except.ok (dbA2, rA))
    (h2 : create_review moduleLoadTime dbB inB uB nB tB =
            Except.ok (dbB2, rB)) :
    rA.comment_date = comment_date_default moduleLoadTime ∧
    rB.comment_date = comment_date_default moduleLoadTime ∧
    rA.comment_date = rB.comment_date := by
  have e1 := congrArg Review.comment_date
    (create_review_ok moduleLoadTime dbA inA uA nA tA dbA2 rA h1).1
  have e2 := congrArg Review.comment_date
    (create_review_ok moduleLoadTime dbB inB uB nB tB dbB2 rB h2).1
  exact ⟨e1, e2, by rw [e1, e2]⟩

theorem claim_C10_witness :
    (100 : Nat) ≠ 200 ∧
    exReviewA.comment_date = exReviewB.comment_date :=
  ⟨by decide,
   (claim_C10 3 exDB exDB exReviewCreate exReviewCreate
      3 4 3 4 100 200 exDBafterA exDBafterB exReviewA exReviewB
      (by simp [create_review, exDB, exProduct, exReviewCreate, exDBafterA,
                exReviewA, update_product_rating, active_grades, scalar_avg,
                py_or, set_rating, comment_date_default]; norm_num)
      (by simp [create_review, exDB, exProduct, exReviewCreate, exDBafterB,
                exReviewB, update_product_rating, active_grades, scalar_avg,
                py_or, set_rating, comment_date_default]; norm_num)).2.2⟩

theorem set_rating_mem (ps : List Product) (pid : Nat) (v : Rat) :
    ∀ p ∈ set_rating pid v ps,
      (p.id = pid → p.rating = v) ∧ (p.id ≠ pid → p ∈ ps) := by
  intro p hp
  obtain ⟨a, ha, hfa⟩ := List.mem_map.mp hp
  by_cases hid : (a.id == pid) = true
  · rw [if_pos hid] at hfa
    subst hfa
    exact ⟨fun _ => rfl, fun hne => absurd (beq_iff_eq.mp hid) hne⟩
  · rw [if_neg hid] at hfa
    subst hfa
    exact ⟨fun he => absurd he (by simpa using hid), fun _ => ha⟩

theorem mean_active_congr (rs1 rs2 : List Review) (pid : Nat)
    (h : active_grades rs1 pid = active_grades rs2 pid) :
    mean_active_grades rs1 pid = mean_active_grades rs2 pid := by
  unfold mean_active_grades
  rw [h]

theorem active_grades_deactivate_other (rs : List Review) (rid pid : Nat)
    (review : Review)
    (hf : rs.find? (fun r => r.id == rid && r.is_active) = some review)
    (huniq : (rs.map (fun r => r.id)).Nodup)
    (hne : review.product_id ≠ pid) :
    active_grades (deactivate_review rid rs) pid = active_grades rs pid := by
  unfold active_grades deactivate_review
  have hmemrev := List.mem_of_find?_eq_some hf
  have hrev := List.find?_some hf
  simp only [Bool.and_eq_true, beq_iff_eq] at hrev
  have hcong := filter_map_congr rs
    (fun r => if r.id == rid then { r with is_active := false } else r)
    (fun r => r.product_id == pid && r.is_active) ?_
  · rw [hcong]
  · intro a ha
    dsimp only
    by_cases hid : (a.id == rid) = true
    · have haeq : a = review := by
        apply List.inj_on_of_nodup_map huniq ha hmemrev
        rw [beq_iff_eq.mp hid, hrev.1]
      rw [if_pos hid]
      subst haeq
      constructor
      · simp only []
        have hpp : (a.product_id == pid) = false := by
          simpa using hne
        simp [hpp]
      · intro hpa
        simp only [Bool.and_eq_true, beq_iff_eq] at hpa
        exact absurd hpa.1 hne
    · rw [if_neg hid]
      exact ⟨rfl, fun _ => rfl⟩

/-- C1: after a successful POST /reviews/ or DELETE /reviews/(id), the
touched product carries exactly the arithmetic mean of grade over its
active reviews (0 when none remain), and the whole-store invariant that
every product rating equals that mean is preserved by both operations; in
the fixtures, active grades 4 and 5 beside a soft-deleted grade 1 yield
rating 9/2 = 4.5. -/
theorem claim_C1 (mlt : Nat) (db : DB) :
    (∀ inp u n t db2 r,
      create_review mlt db inp u n t = Except.ok (db2, r) →
      ∀ p ∈ db2.products, p.id = inp.product_id →
        p.rating = mean_active_grades db2.reviews p.id) ∧
    (∀ inp u n t db2 r,
      create_review mlt db inp u n t = Except.ok (db2, r) →
      rating_invariant db → rating_invariant db2) ∧
    (∀ rid db2 msg,
      unique_review_ids db →
      remove_review db rid = Except.ok (db2, msg) →
      rating_invariant db → rating_invariant db2) := by
  have hcreate : ∀ inp u n t db2 r,
      create_review mlt db inp u n t = Except.ok (db2, r) →
      db2.reviews = db.reviews ++ [r] ∧
      r.product_id = inp.product_id ∧
      db2.products =
        set_rating inp.product_id
          (mean_active_grades db2.reviews inp.product_id) db.products := by
    intro inp u n t db2 r h
    obtain ⟨hr, hupd⟩ := create_review_ok mlt db inp u n t db2 r h
    obtain ⟨_, _, hrev, hprod⟩ :=
      update_product_rating_eq _ inp.product_id db2 hupd
    refine ⟨hrev, by rw [hr], ?_⟩
    rw [hprod, hrev]
  refine ⟨?_, ?_, ?_⟩
  · intro inp u n t db2 r h p hp hpid
    obtain ⟨hrev, hrpid, hprod⟩ := hcreate inp u n t db2 r h
    rw [hprod] at hp
    rw [hpid]
    exact ((set_rating_mem db.products inp.product_id _ p hp).1 hpid)
  · intro inp u n t db2 r h hinv p hp
    obtain ⟨hrev, hrpid, hprod⟩ := hcreate inp u n t db2 r h
    by_cases hpid : p.id = inp.product_id
    · rw [hpid]
      rw [hprod] at hp
      exact ((set_rating_mem db.products inp.product_id _ p hp).1 hpid)
    · rw [hprod] at hp
      have hmem := (set_rating_mem db.products inp.product_id _ p hp).2 hpid
      have hold := hinv p hmem
      rw [hold]
      apply (mean_active_congr _ _ _ _).symm
      rw [hrev]
      exact active_grades_append db.reviews r p.id (by rw [hrpid]; exact hpid ∘ Eq.symm ∘ id)
  · intro rid db2 msg huniq h hinv p hp
    obtain ⟨review, hf, hupd⟩ := remove_review_ok db rid db2 msg h
    obtain ⟨_, _, hrev, hprod⟩ :=
      update_product_rating_eq _ review.product_id db2 hupd
    simp only [] at hrev hprod
    by_cases hpid : p.id = review.product_id
    · rw [hprod] at hp
      have := (set_rating_mem db.products review.product_id _ p hp).1 hpid
      rw [this, hpid, hrev]
    · rw [hprod] at hp
      have hmem := (set_rating_mem db.products review.product_id _ p hp).2 hpid
      have hold := hinv p hmem
      rw [hold, hrev]
      apply (mean_active_congr _ _ _ _).symm
      exact active_grades_deactivate_other db.reviews rid p.id review hf
        huniq (fun he => hpid he.symm)

theorem claim_C1_witness :
    rating_invariant exDB ∧ rating_invariant exDBafterA ∧
    exDBafterA.products.map Product.rating = [9 / 2] := by
  have hinv : rating_invariant exDB := by
    intro p hp
    simp only [exDB, List.mem_singleton] at hp
    subst hp
    norm_num [mean_active_grades, active_grades, mean_of_grades, exDB,
      exProduct]
  refine ⟨hinv, ?_, ?_⟩
  · exact (claim_C1 3 exDB).2.1 exReviewCreate 3 3 100 exDBafterA exReviewA
      (by simp [create_review, exDB, exProduct, exReviewCreate, exDBafterA,
                exReviewA, update_product_rating, active_grades, scalar_avg,
                py_or, set_rating, comment_date_default]; norm_num)
      hinv
  · simp [exDBafterA, exProduct]

/-- C2 counterexample: in exDB user 2 has only a soft-deleted review of
product 1, yet POST /reviews/ by user 2 for product 1 answers 409; the
claim as stated, 409 exactly when an active review exists, is false on
this input, because the duplicate check in create_review does not filter
on is_active. -/
theorem claim_C2_counterexample :
    create_review 0 exDB exReviewCreate 2 3 0 = Except.error 409 ∧
    ¬ ∃ r ∈ exDB.reviews, r.user_id = 2 ∧
        r.product_id = exReviewCreate.product_id ∧ r.is_active = true := by
  constructor
  · decide
  · decide

/-- C2 amended: given the product exists and is active, POST /reviews/
answers 409 Conflict exactly when ANY review by that user for that
product is on file, active or soft-deleted; a soft-deleted review blocks
re-creation. -/
theorem claim_C2 (mlt : Nat) (db : DB) (inp : ReviewCreate) (u n t : Nat)
    (hprod : (db.products.find?
        (fun p => p.id == inp.product_id && p.is_active)).isSome = true) :
    create_review mlt db inp u n t = Except.error 409 ↔
    ∃ r ∈ db.reviews, r.user_id = u ∧ r.product_id = inp.product_id := by
  obtain ⟨q, hq⟩ := Option.isSome_iff_exists.mp hprod
  unfold create_review
  rw [hq]
  cases hr : db.reviews.find?
      (fun r => r.product_id == inp.product_id && r.user_id == u) with
  | some y =>
    have hy := List.find?_some hr
    simp only [Bool.and_eq_true, beq_iff_eq] at hy
    exact iff_of_true rfl
      ⟨y, List.mem_of_find?_eq_some hr, hy.2, hy.1⟩
  | none =>
    apply iff_of_false
    · simp only []
      cases hu : update_product_rating
          { db with reviews := db.reviews ++
              [{ id := n, user_id := u, product_id := inp.product_id,
                 comments := inp.comments,
                 comment_date := comment_date_default mlt,
                 grade := inp.grade, is_active := true }] }
          inp.product_id with
      | none => simp
      | some db3 => simp
    · rintro ⟨r, hmem, hru, hrp⟩
      have := List.find?_eq_none.mp hr r hmem
      simp only [Bool.and_eq_true, beq_iff_eq, not_and] at this
      exact this hrp hru

theorem claim_C2_witness :
    create_review 0 exDB exReviewCreate 2 3 0 = Except.error 409 :=
  (claim_C2 0 exDB exReviewCreate 2 3 0 (by decide)).mpr
    ⟨{ id := 2, user_id := 2, product_id := 1, comments := none,
       comment_date := 0, grade := 1, is_active := false },
     by decide, by decide, by decide⟩

/-- C7: when the product exists and is active but belongs to a different
seller, PUT /products/(id) answers 403 Forbidden; the handler raises
before reaching the UPDATE statement, so no row is written. -/
theorem claim_C7 (db : DB) (product_id : Nat) (inp : ProductCreate)
    (current_user : User) (p : Product)
    (hfind : db.products.find?
        (fun q => q.id == product_id && q.is_active) = some p)
    (howner : p.seller_id ≠ current_user.id) :
    update_product db product_id inp current_user = Except.error 403 := by
  unfold update_product
  rw [hfind]
  simp only [bne_iff_ne, ne_eq, howner, not_false_eq_true, if_true]

theorem claim_C7_witness :
    exProduct.seller_id ≠ otherSeller.id ∧
    update_product exDB 1 exProductCreate otherSeller =
      Except.error 403 :=
  ⟨by decide,
   claim_C7 exDB 1 exProductCreate otherSeller exProduct (by decide)
     (by decide)⟩

/-- C8: the open registration endpoint accepts role admin: the schema
pattern admits the string admin, and for a fresh email create_user
answers 201 with an active user whose stored role is admin. -/
theorem claim_C8 (db : DB) (inp : UserCreate) (newId : Nat)
    (hrole : inp.role = "admin")
    (hfresh : ∀ u ∈ db.users, u.email ≠ inp.email) :
    role_pattern_ok inp.role = true ∧
    create_user_success_status = 201 ∧
    ∃ db2 u, create_user db inp newId = Except.ok (db2, u) ∧
      u.role = "admin" ∧ u.is_active = true ∧ u ∈ db2.users := by
  refine ⟨by rw [hrole]; rfl, rfl, ?_⟩
  have hnone : db.users.find? (fun u => u.email == inp.email) = none := by
    rw [List.find?_eq_none]
    intro u hu
    simp [hfresh u hu]
  unfold create_user
  rw [hnone]
  exact ⟨_, _, rfl, hrole, rfl, by simp⟩

theorem claim_C8_witness :
    ∃ db2 u, create_user exAuthDB exAdminCreate 5 = Except.ok (db2, u) ∧
      u.role = "admin" ∧ u.is_active = true ∧ u ∈ db2.users :=
  (claim_C8 exAuthDB exAdminCreate 5 rfl (by decide)).2.2

theorem find_isSome_eq_any {α : Type} (l : List α) (p : α → Bool) :
    (l.find? p).isSome = l.any p := by
  induction l with
  | nil => rfl
  | cons a t ih =>
    cases hp : p a with
    | true => simp [List.find?_cons, hp]
    | false => simp [List.find?_cons, hp, ih]

/-- C6: a successful DELETE /products/(id) touches only the products table,
and there only the is_active column of the targeted row; rating and every
other column survive unchanged, and the rating recomputation of
update_product_rating is never run by any product operation. -/
theorem claim_C6 (db : DB) (product_id : Nat) (current_user : User)
    (db2 : DB) (p : Product)
    (h : delete_product db product_id current_user = Except.ok (db2, p)) :
    db2.users = db.users ∧ db2.categories = db.categories ∧
    db2.reviews = db.reviews ∧
    db2.products = deactivate_product product_id db.products ∧
    ∀ q ∈ db2.products, ∃ q0 ∈ db.products,
      q.id = q0.id ∧ q.name = q0.name ∧ q.description = q0.description ∧
      q.price = q0.price ∧ q.image_url = q0.image_url ∧
      q.stock = q0.stock ∧ q.rating = q0.rating ∧
      q.category_id = q0.category_id ∧ q.seller_id = q0.seller_id := by
  unfold delete_product at h
  split at h
  · exact absurd h (by simp)
  · split at h
    · exact absurd h (by simp)
    · simp only [Except.ok.injEq, Prod.mk.injEq] at h
      obtain ⟨hdb, hp⟩ := h
      subst hdb
      refine ⟨rfl, rfl, rfl, rfl, ?_⟩
      intro q hq
      unfold deactivate_product at hq
      obtain ⟨q0, hq0, hfq⟩ := List.mem_map.mp hq
      subst hfq
      by_cases hid : (q0.id == product_id) = true
      · rw [if_pos hid]
        exact ⟨q0, hq0, rfl, rfl, rfl, rfl, rfl, rfl, rfl, rfl, rfl⟩
      · rw [if_neg hid]
        exact ⟨q0, hq0, rfl, rfl, rfl, rfl, rfl, rfl, rfl, rfl, rfl⟩

theorem claim_C6_witness :
    ∃ db2 p, delete_product exDB 1 ownerSeller = Except.ok (db2, p) ∧
      db2.reviews = exDB.reviews ∧
      db2.products = deactivate_product 1 exDB.products := by
  have hres : delete_product exDB 1 ownerSeller =
      Except.ok (exDBdeleted, { exProduct with is_active := false }) := by
    decide
  have hc := claim_C6 exDB 1 ownerSeller exDBdeleted
    { exProduct with is_active := false } hres
  exact ⟨exDBdeleted, { exProduct with is_active := false }, hres,
    hc.2.2.1, hc.2.2.2.1⟩

/-- C3: on success both refresh-flow endpoints embed in the new token the
sub, role and id of the user row freshly loaded from the store, not the
claims carried by the old token; and when every user with the presented
email is deactivated, both endpoints answer 401. -/
theorem claim_C3 (db : DB) (payload : TokenPayload) (now : Nat)
    (email : String) (hsub : payload.sub = some email) :
    (∀ resp, refresh_token_endpoint db (DecodeResult.ok payload) now =
        Except.ok resp →
      ∃ u, db.users.find? (fun v => v.email == email && v.is_active) =
          some u ∧
        u ∈ db.users ∧ u.is_active = true ∧
        resp.refresh_token.sub = u.email ∧
        resp.refresh_token.role = u.role ∧
        resp.refresh_token.id = u.id) ∧
    (∀ resp, new_token_endpoint db (DecodeResult.ok payload) now =
        Except.ok resp →
      ∃ u, db.users.find? (fun v => v.email == email && v.is_active) =
          some u ∧
        u ∈ db.users ∧ u.is_active = true ∧
        resp.refresh_token.sub = u.email ∧
        resp.refresh_token.role = u.role ∧
        resp.refresh_token.id = u.id) ∧
    ((∀ u ∈ db.users, u.email = email → u.is_active = false) →
      refresh_token_endpoint db (DecodeResult.ok payload) now =
        Except.error 401 ∧
      new_token_endpoint db (DecodeResult.ok payload) now =
        Except.error 401) := by
  have hnone : (∀ u ∈ db.users, u.email = email → u.is_active = false) →
      db.users.find? (fun v => v.email == email && v.is_active) = none := by
    intro hall
    rw [List.find?_eq_none]
    intro v hv
    simp only [Bool.and_eq_true, beq_iff_eq, not_and]
    intro hve hva
    rw [hall v hv hve] at hva
    exact Bool.false_ne_true hva
  refine ⟨?_, ?_, ?_⟩
  · intro resp h
    unfold refresh_token_endpoint at h
    dsimp only at h
    rw [hsub] at h
    dsimp only at h
    by_cases htt : (payload.token_type != some "refresh") = true
    · rw [if_pos htt] at h
      exact absurd h (by simp)
    · rw [if_neg htt] at h
      cases hf : db.users.find? (fun v => v.email == email && v.is_active) with
      | none => rw [hf] at h; exact absurd h (by simp)
      | some u =>
        rw [hf] at h
        dsimp only at h
        have hu := List.find?_some hf
        simp only [Bool.and_eq_true, beq_iff_eq] at hu
        simp only [Except.ok.injEq] at h
        subst h
        exact ⟨u, rfl, List.mem_of_find?_eq_some hf, hu.2, rfl, rfl, rfl⟩
  · intro resp h
    unfold new_token_endpoint at h
    dsimp only at h
    rw [hsub] at h
    dsimp only at h
    by_cases htt : (payload.token_type != some "refresh") = true
    · rw [if_pos htt] at h
      exact absurd h (by simp)
    · rw [if_neg htt] at h
      cases hf : db.users.find? (fun v => v.email == email && v.is_active) with
      | none => rw [hf] at h; exact absurd h (by simp)
      | some u =>
        rw [hf] at h
        dsimp only at h
        have hu := List.find?_some hf
        simp only [Bool.and_eq_true, beq_iff_eq] at hu
        simp only [Except.ok.injEq] at h
        subst h
        exact ⟨u, rfl, List.mem_of_find?_eq_some hf, hu.2, rfl, rfl, rfl⟩
  · intro hall
    constructor
    · unfold refresh_token_endpoint
      dsimp only
      rw [hsub]
      dsimp only
      by_cases htt : (payload.token_type != some "refresh") = true
      · rw [if_pos htt]
      · rw [if_neg htt, hnone hall]
    · unfold new_token_endpoint
      dsimp only
      rw [hsub]
      dsimp only
      by_cases htt : (payload.token_type != some "refresh") = true
      · rw [if_pos htt]
      · rw [if_neg htt, hnone hall]

theorem claim_C3_witness :
    (∃ u, exAuthDB.users.find?
        (fun v => v.email == "b@x.com" && v.is_active) = some u ∧
      u ∈ exAuthDB.users ∧ u.is_active = true ∧
      (TokenResponseBody.mk (create_refresh_token "b@x.com" "buyer" 1 50)
        "bearer").refresh_token.sub = u.email ∧
      (TokenResponseBody.mk (create_refresh_token "b@x.com" "buyer" 1 50)
        "bearer").refresh_token.role = u.role ∧
      (TokenResponseBody.mk (create_refresh_token "b@x.com" "buyer" 1 50)
        "bearer").refresh_token.id = u.id) ∧
    refresh_token_endpoint exAuthDB (DecodeResult.ok exInactivePayload) 50 =
      Except.error 401 :=
  ⟨(claim_C3 exAuthDB exPayload 50 "b@x.com" rfl).1
     (TokenResponseBody.mk (create_refresh_token "b@x.com" "buyer" 1 50)
       "bearer") (by decide),
   ((claim_C3 exAuthDB exInactivePayload 50 "off@x.com" rfl).2.2
     (by decide)).1⟩

/-- C4: both refresh-flow endpoints answer 401 exactly when the decode
fails (malformed signature or structure, or expired), the sub claim is
missing, the token_type claim is not refresh, or no active user with the
embedded email exists; in every other case they answer 200, and 401 is the
only error status either can produce. -/
theorem claim_C4 (db : DB) (decoded : DecodeResult) (now : Nat) :
    ((∃ resp, refresh_token_endpoint db decoded now = Except.ok resp) ↔
      token_request_rejected db decoded = false) ∧
    ((∃ resp, new_token_endpoint db decoded now = Except.ok resp) ↔
      token_request_rejected db decoded = false) ∧
    (∀ e, refresh_token_endpoint db decoded now = Except.error e →
      e = 401) ∧
    (∀ e, new_token_endpoint db decoded now = Except.error e → e = 401) := by
  cases decoded with
  | expired =>
    refine ⟨?_, ?_, ?_, ?_⟩
    · exact iff_of_false (by rintro ⟨r, hr⟩; exact absurd hr (by simp [refresh_token_endpoint])) (by simp [token_request_rejected])
    · exact iff_of_false (by rintro ⟨r, hr⟩; exact absurd hr (by simp [new_token_endpoint])) (by simp [token_request_rejected])
    · intro e he
      simp only [refresh_token_endpoint, Except.error.injEq] at he
      exact he.symm
    · intro e he
      simp only [new_token_endpoint, Except.error.injEq] at he
      exact he.symm
  | malformed =>
    refine ⟨?_, ?_, ?_, ?_⟩
    · exact iff_of_false (by rintro ⟨r, hr⟩; exact absurd hr (by simp [refresh_token_endpoint])) (by simp [token_request_rejected])
    · exact iff_of_false (by rintro ⟨r, hr⟩; exact absurd hr (by simp [new_token_endpoint])) (by simp [token_request_rejected])
    · intro e he
      simp only [refresh_token_endpoint, Except.error.injEq] at he
      exact he.symm
    · intro e he
      simp only [new_token_endpoint, Except.error.injEq] at he
      exact he.symm
  | ok payload =>
    cases hs : payload.sub with
    | none =>
      refine ⟨?_, ?_, ?_, ?_⟩
      · exact iff_of_false
          (by rintro ⟨r, hr⟩; exact absurd hr (by simp [refresh_token_endpoint, hs]))
          (by simp [token_request_rejected, hs])
      · exact iff_of_false
          (by rintro ⟨r, hr⟩; exact absurd hr (by simp [new_token_endpoint, hs]))
          (by simp [token_request_rejected, hs])
      · intro e he
        simp only [refresh_token_endpoint, hs, Except.error.injEq] at he
        exact he.symm
      · intro e he
        simp only [new_token_endpoint, hs, Except.error.injEq] at he
        exact he.symm
    | some email =>
      have hrej : token_request_rejected db (DecodeResult.ok payload) =
          (payload.token_type != some "refresh" ||
            !(db.users.any (fun u => u.email == email && u.is_active))) := by
        simp [token_request_rejected, hs]
      cases htt : (payload.token_type != some "refresh") with
      | true =>
        refine ⟨?_, ?_, ?_, ?_⟩
        · exact iff_of_false
            (by rintro ⟨r, hr⟩;
                exact absurd hr (by simp [refresh_token_endpoint, hs, htt]))
            (by rw [hrej, htt]; simp)
        · exact iff_of_false
            (by rintro ⟨r, hr⟩;
                exact absurd hr (by simp [new_token_endpoint, hs, htt]))
            (by rw [hrej, htt]; simp)
        · intro e he
          simp only [refresh_token_endpoint, hs, htt, if_true,
            Except.error.injEq] at he
          exact he.symm
        · intro e he
          simp only [new_token_endpoint, hs, htt, if_true,
            Except.error.injEq] at he
          exact he.symm
      | false =>
        cases hf : db.users.find? (fun u => u.email == email && u.is_active) with
        | none =>
          have hany : db.users.any (fun u => u.email == email && u.is_active) =
              false := by
            rw [← find_isSome_eq_any, hf]
            rfl
          refine ⟨?_, ?_, ?_, ?_⟩
          · exact iff_of_false
              (by rintro ⟨r, hr⟩;
                  exact absurd hr
                    (by simp [refresh_token_endpoint, hs, htt, hf]))
              (by rw [hrej, htt, hany]; simp)
          · exact iff_of_false
              (by rintro ⟨r, hr⟩;
                  exact absurd hr
                    (by simp [new_token_endpoint, hs, htt, hf]))
              (by rw [hrej, htt, hany]; simp)
          · intro e he
            simp only [refresh_token_endpoint, hs, htt, hf,
              Bool.false_eq_true, if_false, Except.error.injEq] at he
            exact he.symm
          · intro e he
            simp only [new_token_endpoint, hs, htt, hf,
              Bool.false_eq_true, if_false, Except.error.injEq] at he
            exact he.symm
        | some u =>
          have hany : db.users.any (fun u => u.email == email && u.is_active) =
              true := by
            rw [← find_isSome_eq_any, hf]
            rfl
          refine ⟨?_, ?_, ?_, ?_⟩
          · exact iff_of_true
              ⟨TokenResponseBody.mk
                 (create_refresh_token u.email u.role u.id now) "bearer",
               by simp [refresh_token_endpoint, hs, htt, hf]⟩
              (by rw [hrej, htt, hany]; simp)
          · exact iff_of_true
              ⟨TokenResponseBody.mk
                 (create_access_token u.email u.role u.id now) "bearer",
               by simp [new_token_endpoint, hs, htt, hf]⟩
              (by rw [hrej, htt, hany]; simp)
          · intro e he
            simp only [refresh_token_endpoint, hs, htt, hf,
              Bool.false_eq_true, if_false] at he
            exact absurd he (by simp)
          · intro e he
            simp only [new_token_endpoint, hs, htt, hf,
              Bool.false_eq_true, if_false] at he
            exact absurd he (by simp)

theorem claim_C4_witness :
    (∃ resp, refresh_token_endpoint exAuthDB (DecodeResult.ok exPayload) 0 =
      Except.ok resp) ∧
    (401 : Nat) = 401 :=
  ⟨(claim_C4 exAuthDB (DecodeResult.ok exPayload) 0).1.mpr (by decide),
   (claim_C4 exAuthDB DecodeResult.malformed 0).2.2.1 401 (by decide)⟩

/-- C5: a successful POST /users/new_token issues its token through
create_access_token, so the token carries token_type access and differs
from what create_refresh_token would have produced, and the handler
returns it in the response-body field named refresh_token. -/
theorem claim_C5 (db : DB) (decoded : DecodeResult) (now : Nat)
    (resp : TokenResponseBody)
    (h : new_token_endpoint db decoded now = Except.ok resp) :
    ∃ u ∈ db.users, u.is_active = true ∧
      resp.refresh_token = create_access_token u.email u.role u.id now ∧
      resp.refresh_token.token_type = "access" ∧
      resp.refresh_token ≠ create_refresh_token u.email u.role u.id now := by
  cases decoded with
  | expired => exact absurd h (by simp [new_token_endpoint])
  | malformed => exact absurd h (by simp [new_token_endpoint])
  | ok payload =>
    unfold new_token_endpoint at h
    dsimp only at h
    cases hs : payload.sub with
    | none => rw [hs] at h; exact absurd h (by simp)
    | some email =>
      rw [hs] at h
      dsimp only at h
      by_cases htt : (payload.token_type != some "refresh") = true
      · rw [if_pos htt] at h
        exact absurd h (by simp)
      · rw [if_neg htt] at h
        cases hf : db.users.find?
            (fun v => v.email == email && v.is_active) with
        | none => rw [hf] at h; exact absurd h (by simp)
        | some u =>
          rw [hf] at h
          dsimp only at h
          have hu := List.find?_some hf
          simp only [Bool.and_eq_true, beq_iff_eq] at hu
          simp only [Except.ok.injEq] at h
          subst h
          refine ⟨u, List.mem_of_find?_eq_some hf, hu.2, rfl, rfl, ?_⟩
          intro heq
          have := congrArg IssuedToken.token_type heq
          simp [create_access_token, create_refresh_token] at this

theorem claim_C5_witness :
    ∃ u ∈ exAuthDB.users, u.is_active = true ∧
      (TokenResponseBody.mk (create_access_token "b@x.com" "buyer" 1 50)
        "bearer").refresh_token =
          create_access_token u.email u.role u.id 50 ∧
      (TokenResponseBody.mk (create_access_token "b@x.com" "buyer" 1 50)
        "bearer").refresh_token.token_type = "access" ∧
      (TokenResponseBody.mk (create_access_token "b@x.com" "buyer" 1 50)
        "bearer").refresh_token ≠
          create_refresh_token u.email u.role u.id 50 :=
  claim_C5 exAuthDB (DecodeResult.ok exPayload) 50
    (TokenResponseBody.mk (create_access_token "b@x.com" "buyer" 1 50)
      "bearer") (by decide)

end Shop
